import Mathlib

/-!
Verification of the jinja demo application (`src/demos/jinja_demo/jinja_app.py`).

The source file defines a `User` record, three FastAPI request handlers
(`htmx_or_data`, `htmx_only`, `index`), and wires them through the `fasthx`
conditional render decorators `jinja.hx` and `jinja.page`.  The handlers and
the `User` model are embedded from the source; the decorator bodies live in
the external `fasthx` package and are not part of the sources, so they are
modelled from the specification (each such definition says so in its doc
comment).  Mutation of the injected `Response` object is embedded as explicit
state passing, and the external template renderer is a function parameter
returning `Except`, so that rendering failures are explicit values.
-/

/-- The `User` model of the demo (id, first_name, last_name, age), with the
optional fields `id` and `age` defaulting to `none` exactly where the source
omits them. -/
structure User where
  id : Option Int
  first_name : String
  last_name : String
  age : Option Int
deriving Repr, DecidableEq

/-- The response side-channel: the header mapping of the injected FastAPI
`Response` object, embedded as an association list (most recent assignment
first). -/
structure Response where
  headers : List (String × String)
deriving Repr, DecidableEq

/-- Dictionary-style header assignment `response.headers[k] = v`: any earlier
binding of `k` is replaced. -/
def setHeader (r : Response) (k v : String) : Response :=
  ⟨(k, v) :: r.headers.filter (fun p => p.1 ≠ k)⟩

/-- Header lookup on a response. -/
def getHeader (r : Response) (k : String) : Option String :=
  r.headers.lookup k

/-- Handler Result shape: a handler returns nothing, a single record, or a
sequence of records (the tagged variant named by the specification's design
notes). -/
inductive HandlerResult where
  | nothing : HandlerResult
  | single (u : User) : HandlerResult
  | many (us : List User) : HandlerResult
deriving Repr, DecidableEq

/-- A value stored in a Render Context: a single record or a sequence of
records. -/
inductive CtxValue where
  | record (u : User) : CtxValue
  | records (us : List User) : CtxValue
deriving Repr, DecidableEq

/-- Render Context: the name-to-value mapping handed to the template
renderer. -/
def RenderContext : Type := List (String × CtxValue)

/-- Modelled from the spec: the Handler-Result-to-Render-Context conversion
performed inside the `fasthx` decorators, which are not in the sources.  A
nothing result yields an empty context; a single record is exposed under a
named field (here `item`; the spec leaves the exact singular key open); a
sequence is exposed under the field `items` (the key used by the spec's
scenario). -/
def makeContext : HandlerResult → RenderContext
  | .nothing => []
  | .single u => [("item", CtxValue.record u)]
  | .many us => [("items", CtxValue.records us)]

/-- What the wrapper produced: rendered markup, or the raw handler result to
be serialized by the host framework; both carry the response side-channel as
updated by the handler. -/
inductive WrapperOutput where
  | rendered (body : String) (response : Response) : WrapperOutput
  | raw (result : HandlerResult) (response : Response) : WrapperOutput
deriving Repr, DecidableEq

/-- Modelled from the spec: the conditional render decorator `jinja.hx` of
the external `fasthx` package, which is not in the sources.  The wrapper
invokes the original handler with its original arguments (errors of type `ε`
propagate unchanged); it then reads the Request Signal: if the signal is true
or `no_data` is true it builds the Render Context from the result and invokes
the renderer with the Template Reference, returning the markup (rendering
errors of type `ρ` propagate unchanged); otherwise it returns the raw result
unchanged. -/
def hx {α ε ρ : Type} (template : String) (no_data : Bool)
    (render : String → RenderContext → Except ρ String)
    (handler : α → Response → Except ε (HandlerResult × Response))
    (args : α) (signal : Bool) (response : Response) :
    Except (ε ⊕ ρ) WrapperOutput :=
  match handler args response with
  | .error e => .error (.inl e)
  | .ok (result, response') =>
    if signal || no_data then
      Except.map (fun markup => WrapperOutput.rendered markup response')
        (Except.mapError Sum.inr (render template (makeContext result)))
    else
      .ok (.raw result response')

/-- Modelled from the spec: the `jinja.page` decorator variant of the
external `fasthx` package, which is not in the sources.  It always renders,
ignoring the Request Signal and any value the handler returned, so the
renderer receives an empty Render Context; handler and rendering errors
propagate unchanged. -/
def page {α ε ρ : Type} (template : String)
    (render : String → RenderContext → Except ρ String)
    (handler : α → Response → Except ε (HandlerResult × Response))
    (args : α) (signal : Bool) (response : Response) :
    Except (ε ⊕ ρ) WrapperOutput :=
  match handler args response with
  | .error e => .error (.inl e)
  | .ok (_, response') =>
    Except.map (fun markup => WrapperOutput.rendered markup response')
      (Except.mapError Sum.inr (render template []))

/-- First record returned by the `/user-list` handler. -/
def peterVolf : User := ⟨none, "Peter", "Volf", some 18⟩

/-- Second record returned by the `/user-list` handler. -/
def johnDoe : User := ⟨none, "John", "Doe", some 20⟩

/-- Third record returned by the `/user-list` handler. -/
def hasanTasan : User := ⟨none, "Hasan", "Tasan", some 24⟩

/-- Body of the `/user-list` handler from the source: it sets the header
`my-response-header` to `works` on the injected response and returns the
tuple of three users. -/
def htmx_or_data (response : Response) : HandlerResult × Response :=
  let response := setHeader response "my-response-header" "works"
  (.many [peterVolf, johnDoe, hasanTasan], response)

/-- Body of the `/admin-list` handler from the source: returns a one-element
list of users and touches no response state. -/
def htmx_only : HandlerResult := .many [⟨none, "John", "Doe", some 10⟩]

/-- Body of the `/` handler from the source: returns nothing. -/
def index : HandlerResult := .nothing

/-- The `/user-list` endpoint: `htmx_or_data` wrapped by
`jinja.hx("user-list.html")` (so `no_data` is false).  The handler itself
never raises, hence the `Empty` error type. -/
def userListEndpoint {ρ : Type} (render : String → RenderContext → Except ρ String)
    (signal : Bool) (response : Response) : Except (Empty ⊕ ρ) WrapperOutput :=
  hx "user-list.html" false render
    (fun (_ : Unit) r => Except.ok (htmx_or_data r)) () signal response

/-- The `/admin-list` endpoint: `htmx_only` wrapped by
`jinja.hx("user-list.html", no_data=True)`. -/
def adminListEndpoint {ρ : Type} (render : String → RenderContext → Except ρ String)
    (signal : Bool) (response : Response) : Except (Empty ⊕ ρ) WrapperOutput :=
  hx "user-list.html" true render
    (fun (_ : Unit) r => Except.ok (htmx_only, r)) () signal response

/-- The `/` endpoint: `index` wrapped by `jinja.page("index.html")`. -/
def indexEndpoint {ρ : Type} (render : String → RenderContext → Except ρ String)
    (signal : Bool) (response : Response) : Except (Empty ⊕ ρ) WrapperOutput :=
  page "index.html" render
    (fun (_ : Unit) r => Except.ok (index, r)) () signal response

/-- A trivial renderer used to instantiate witness statements. -/
def renderStub : String → RenderContext → Except Unit String :=
  fun _ _ => .ok "markup"

/-- The empty response used to instantiate witness statements. -/
def resp0 : Response := ⟨[]⟩

/-- C1: for every handler that returns a non-empty collection, when the
Request Signal is true the `jinja.hx` wrapper invokes the renderer with the
given Template Reference and a context holding that collection under the
field `items`, and the wrapper's result is the renderer's markup; in
particular the `/user-list` endpoint calls the renderer with template
`user-list.html` and the context mapping `items` to its three records. -/
theorem hx_renders_nonempty_collection :
    (∀ (α ε ρ : Type) (t : String) (render : String → RenderContext → Except ρ String)
      (handler : α → Response → Except ε (HandlerResult × Response))
      (a : α) (resp resp' : Response) (xs : List User),
      handler a resp = .ok (.many xs, resp') → xs ≠ [] →
      hx t false render handler a true resp
        = Except.map (fun m => WrapperOutput.rendered m resp')
            (Except.mapError Sum.inr (render t [("items", CtxValue.records xs)])))
    ∧ ∀ (ρ : Type) (render : String → RenderContext → Except ρ String) (resp : Response),
      userListEndpoint render true resp
        = Except.map (fun m => WrapperOutput.rendered m (setHeader resp "my-response-header" "works"))
            (Except.mapError Sum.inr
              (render "user-list.html"
                [("items", CtxValue.records [peterVolf, johnDoe, hasanTasan])])) := by
  constructor
  · intro α ε ρ t render handler a resp resp' xs h _
    simp [hx, h, makeContext]
  · intro ρ render resp
    simp [userListEndpoint, hx, htmx_or_data, makeContext]

/-- Witness for C1 at the `/user-list` handler with three records, the stub
renderer and the empty response. -/
theorem hx_renders_nonempty_collection_witness :
    hx "user-list.html" false renderStub
        (fun (_ : Unit) r => Except.ok (ε := Empty) (htmx_or_data r)) () true resp0
      = .ok (.rendered "markup" (setHeader resp0 "my-response-header" "works")) := by
  have h := hx_renders_nonempty_collection.1 Unit Empty Unit "user-list.html" renderStub
      (fun (_ : Unit) r => Except.ok (htmx_or_data r)) ()
      resp0 (setHeader resp0 "my-response-header" "works")
      [peterVolf, johnDoe, hasanTasan] rfl (by simp)
  simpa [renderStub, Except.map, Except.mapError] using h

/-- C2: when the Request Signal is false and `no_data` is false, the
`jinja.hx` wrapper returns the handler's raw return value (and its response
state) unchanged. -/
theorem hx_identity_without_signal :
    ∀ (α ε ρ : Type) (t : String) (render : String → RenderContext → Except ρ String)
      (handler : α → Response → Except ε (HandlerResult × Response))
      (a : α) (resp resp' : Response) (r : HandlerResult),
      handler a resp = .ok (r, resp') →
      hx t false render handler a false resp = .ok (.raw r resp') := by
  intro α ε ρ t render handler a resp resp' r h
  simp [hx, h]

/-- Witness for C2 at the `/user-list` handler with the stub renderer and
the empty response. -/
theorem hx_identity_without_signal_witness :
    hx "user-list.html" false renderStub
        (fun (_ : Unit) r => Except.ok (ε := Empty) (htmx_or_data r)) () false resp0
      = .ok (.raw (HandlerResult.many [peterVolf, johnDoe, hasanTasan])
          (setHeader resp0 "my-response-header" "works")) :=
  hx_identity_without_signal Unit Empty Unit "user-list.html" renderStub
    (fun (_ : Unit) r => Except.ok (htmx_or_data r)) ()
    resp0 (setHeader resp0 "my-response-header" "works")
    (HandlerResult.many [peterVolf, johnDoe, hasanTasan]) rfl

/-- C3: with `no_data` true, the `jinja.hx` wrapper invokes the renderer for
both values of the Request Signal — the result always equals the renderer's
outcome on the converted context, so the raw-data branch is never taken. -/
theorem hx_no_data_always_renders :
    ∀ (α ε ρ : Type) (t : String) (render : String → RenderContext → Except ρ String)
      (handler : α → Response → Except ε (HandlerResult × Response))
      (a : α) (resp resp' : Response) (r : HandlerResult),
      handler a resp = .ok (r, resp') → ∀ s : Bool,
      hx t true render handler a s resp
        = Except.map (fun m => WrapperOutput.rendered m resp')
            (Except.mapError Sum.inr (render t (makeContext r))) := by
  intro α ε ρ t render handler a resp resp' r h s
  simp [hx, h]

/-- Witness for C3 at the `/admin-list` handler (wrapped with `no_data`
true), the stub renderer, the empty response, and Request Signal false. -/
theorem hx_no_data_always_renders_witness :
    hx "user-list.html" true renderStub
        (fun (_ : Unit) r => Except.ok (ε := Empty) (htmx_only, r)) () false resp0
      = .ok (.rendered "markup" resp0) := by
  have h := hx_no_data_always_renders Unit Empty Unit "user-list.html" renderStub
      (fun (_ : Unit) r => Except.ok (htmx_only, r)) () resp0 resp0 htmx_only rfl false
  simpa [renderStub, Except.map, Except.mapError] using h

/-- C4: the `jinja.page` variant invokes the renderer on every request
regardless of the Request Signal, ignores the handler's returned value (the
result does not appear in the output), and hands the renderer an empty
Render Context; in particular the `/` endpoint, whose handler returns
nothing, always renders `index.html` with the empty context. -/
theorem page_always_renders_empty_context :
    (∀ (α ε ρ : Type) (t : String) (render : String → RenderContext → Except ρ String)
      (handler : α → Response → Except ε (HandlerResult × Response))
      (a : α) (resp resp' : Response) (r : HandlerResult),
      handler a resp = .ok (r, resp') → ∀ s : Bool,
      page t render handler a s resp
        = Except.map (fun m => WrapperOutput.rendered m resp')
            (Except.mapError Sum.inr (render t [])))
    ∧ ∀ (ρ : Type) (render : String → RenderContext → Except ρ String)
      (s : Bool) (resp : Response),
      indexEndpoint render s resp
        = Except.map (fun m => WrapperOutput.rendered m resp)
            (Except.mapError Sum.inr (render "index.html" [])) := by
  constructor
  · intro α ε ρ t render handler a resp resp' r h s
    simp [page, h]
  · intro ρ render s resp
    simp [indexEndpoint, page]

/-- Witness for C4 at the `/` handler (which returns nothing), the stub
renderer, the empty response, and Request Signal false. -/
theorem page_always_renders_empty_context_witness :
    page "index.html" renderStub
        (fun (_ : Unit) r => Except.ok (ε := Empty) (index, r)) () false resp0
      = .ok (.rendered "markup" resp0) := by
  have h := page_always_renders_empty_context.1 Unit Empty Unit "index.html" renderStub
      (fun (_ : Unit) r => Except.ok (index, r)) () resp0 resp0 index rfl false
  simpa [renderStub, Except.map, Except.mapError] using h

/-- C5: the Render Context handed to the renderer is built from the Handler
Result by shape — when the rendering branch of `jinja.hx` is taken, a
nothing result yields the empty context, a single record is exposed under
the field `item`, and a sequence is exposed under the field `items`. -/
theorem hx_context_built_by_shape :
    ∀ (ρ : Type) (t : String) (render : String → RenderContext → Except ρ String)
      (s : Bool) (resp : Response),
      (hx t true render
          (fun (_ : Unit) r => Except.ok (ε := Empty) (HandlerResult.nothing, r)) () s resp
        = Except.map (fun m => WrapperOutput.rendered m resp)
            (Except.mapError Sum.inr (render t [])))
      ∧ (∀ u : User, hx t true render
          (fun (_ : Unit) r => Except.ok (ε := Empty) (HandlerResult.single u, r)) () s resp
        = Except.map (fun m => WrapperOutput.rendered m resp)
            (Except.mapError Sum.inr (render t [("item", CtxValue.record u)])))
      ∧ ∀ xs : List User, hx t true render
          (fun (_ : Unit) r => Except.ok (ε := Empty) (HandlerResult.many xs, r)) () s resp
        = Except.map (fun m => WrapperOutput.rendered m resp)
            (Except.mapError Sum.inr (render t [("items", CtxValue.records xs)])) := by
  intro ρ t render s resp
  refine ⟨?_, fun u => ?_, fun xs => ?_⟩ <;> simp [hx, makeContext]

/-- C6: any error the handler raises propagates through the `jinja.hx`
wrapper unchanged, for both `no_data` settings and both signal values, and
no rendering happens — the output is the handler's error for every renderer.
-/
theorem hx_propagates_handler_error :
    ∀ (α ε ρ : Type) (t : String) (render : String → RenderContext → Except ρ String)
      (handler : α → Response → Except ε (HandlerResult × Response))
      (a : α) (resp : Response) (e : ε),
      handler a resp = .error e → ∀ (nd s : Bool),
      hx t nd render handler a s resp = .error (.inl e) := by
  intro α ε ρ t render handler a resp e h nd s
  simp [hx, h]

/-- Witness for C6 at a handler that always raises the error `0`. -/
theorem hx_propagates_handler_error_witness :
    hx "user-list.html" false renderStub
        (fun (_ : Unit) (_ : Response) =>
          Except.error (α := HandlerResult × Response) (0 : Nat)) () true resp0
      = .error (.inl 0) :=
  hx_propagates_handler_error Unit Nat Unit "user-list.html" renderStub
    (fun _ _ => Except.error 0) () resp0 0 rfl false true

/-- C7: when the rendering branch of `jinja.hx` is taken and the renderer
fails (the template does not resolve or rendering fails), the failure
propagates unchanged — no retry, recovery, or fallback result. -/
theorem hx_propagates_render_error :
    ∀ (α ε ρ : Type) (t : String) (render : String → RenderContext → Except ρ String)
      (handler : α → Response → Except ε (HandlerResult × Response))
      (a : α) (resp resp' : Response) (r : HandlerResult) (e : ρ) (nd s : Bool),
      handler a resp = .ok (r, resp') → (s || nd) = true →
      render t (makeContext r) = .error e →
      hx t nd render handler a s resp = .error (.inr e) := by
  intro α ε ρ t render handler a resp resp' r e nd s h hb hr
  simp [hx, h, hb, hr, Except.mapError, Except.map]

/-- Witness for C7 at the `/user-list` handler with a renderer that always
fails with error `7`. -/
theorem hx_propagates_render_error_witness :
    hx "user-list.html" false
        (fun (_ : String) (_ : RenderContext) => Except.error (α := String) (7 : Nat))
        (fun (_ : Unit) r => Except.ok (ε := Empty) (htmx_or_data r)) () true resp0
      = .error (.inr 7) :=
  hx_propagates_render_error Unit Empty Nat "user-list.html"
    (fun _ _ => Except.error 7)
    (fun (_ : Unit) r => Except.ok (htmx_or_data r)) ()
    resp0 (setHeader resp0 "my-response-header" "works")
    (HandlerResult.many [peterVolf, johnDoe, hasanTasan]) 7 false true
    rfl rfl rfl

/-- C8: when the rendering branch is taken, the response metadata the handler
set through the side-channel is preserved: the `/user-list` endpoint's
rendered output carries the response on which `my-response-header` is
`works`. -/
theorem userList_rendered_preserves_header :
    ∀ (ρ : Type) (render : String → RenderContext → Except ρ String)
      (resp : Response) (m : String),
      render "user-list.html"
          [("items", CtxValue.records [peterVolf, johnDoe, hasanTasan])] = .ok m →
      userListEndpoint render true resp
          = .ok (.rendered m (setHeader resp "my-response-header" "works"))
        ∧ getHeader (setHeader resp "my-response-header" "works")
            "my-response-header" = some "works" := by
  intro ρ render resp m h
  constructor
  · simp [userListEndpoint, hx, htmx_or_data, makeContext, h,
      Except.map, Except.mapError]
  · simp [getHeader, setHeader, List.lookup]

/-- Witness for C8 with the stub renderer and the empty response. -/
theorem userList_rendered_preserves_header_witness :
    userListEndpoint renderStub true resp0
        = .ok (.rendered "markup" (setHeader resp0 "my-response-header" "works"))
      ∧ getHeader (setHeader resp0 "my-response-header" "works")
          "my-response-header" = some "works" :=
  userList_rendered_preserves_header Unit renderStub resp0 "markup" rfl

/-- C9: the `/user-list` handler is deterministic — for every injected
response it returns exactly the three records Peter Volf (18), John Doe (20)
and Hasan Tasan (24), each with `id` equal to `none`. -/
theorem htmx_or_data_deterministic :
    ∀ resp : Response,
      (htmx_or_data resp).1
        = HandlerResult.many
            [⟨none, "Peter", "Volf", some 18⟩,
             ⟨none, "John", "Doe", some 20⟩,
             ⟨none, "Hasan", "Tasan", some 24⟩] := by
  intro resp
  rfl

/-- C10: on every invocation the `/user-list` handler sets the header
`my-response-header` to `works` on the injected response before returning. -/
theorem htmx_or_data_sets_header :
    ∀ resp : Response,
      getHeader (htmx_or_data resp).2 "my-response-header" = some "works" := by
  intro resp
  simp [htmx_or_data, getHeader, setHeader, List.lookup]
